import Mathlib

/-!
The Vulkan device chooser layer (`layer.cpp`).

A shallow embedding of the Vulkan layer in `src/vkdevicechooser/layer.cpp`.

Modelling conventions.

* Handles and function pointers are machine addresses (`Nat`); `0` is the null
  pointer / `VK_NULL_HANDLE`.  A dispatchable handle (instance, device) also
  carries the first machine word stored behind it, which is what `GetKey` reads.
* Code that is not part of the layer (the next layer reached through function
  pointers, the loader's resolvers) is a parameter `NextLayer`: for every function
  pointer value it says what a call through that pointer returns.  Every call that
  leaves the layer is also recorded, in order, in a trace of `Event`s, together
  with the libc calls `atoi`, `printf` and `fprintf(stderr, ...)`.
* A pointer argument that may be null is an `Option` holding the pointee.
* An entry point returns `none` exactly when the C++ code has undefined behaviour
  on that input (call through a null function pointer, null dereference,
  out-of-bounds access).
* Embedded: `GetKey`, `GetInstanceDispatch`, `GetDeviceDispatch`, `GetEnv`, `ChooseDevice`,
  the three physical-device enumeration entry points, instance and device creation and
  destruction, `EnumerateInstanceExtensionProperties` and the two function lookups.
-/

namespace VkDeviceChooser

/-! ## Vulkan types and constants used by the layer -/

/-- Return code of a Vulkan command (`enum VkResult`). -/
abbrev VkResult := Int

/-- Value in `vulkan_core.h`. -/
def VK_SUCCESS : VkResult := 0

/-- Value in `vulkan_core.h`. -/
def VK_INCOMPLETE : VkResult := 5

/-- Value in `vulkan_core.h`. -/
def VK_ERROR_LAYER_NOT_PRESENT : VkResult := -6

/-- Address of a function; `0` is the null function pointer. -/
abbrev PFN_vkVoidFunction := Nat

/-- Physical-device handle; `VK_NULL_HANDLE` is `0`. -/
abbrev VkPhysicalDevice := Nat

/-- The null handle. -/
def VK_NULL_HANDLE : Nat := 0

/-- The `VkBool32` value false. -/
def VK_FALSE : Nat := 0

/-- Dispatchable handle: the address it points to and the first machine word stored
there (the loader's dispatch pointer). -/
structure Dispatchable where
  addr : Nat
  word0 : Nat
  deriving DecidableEq, Repr

abbrev VkInstance := Dispatchable
abbrev VkDevice := Dispatchable

/-- The struct `VkPhysicalDeviceGroupProperties`; the array `physicalDevices` has
`VK_MAX_DEVICE_GROUP_SIZE = 32` elements. -/
structure VkPhysicalDeviceGroupProperties where
  sType : Nat
  pNext : Nat
  physicalDeviceCount : Nat
  physicalDevices : Fin 32 → VkPhysicalDevice
  subsetAllocation : Nat

/-- The fields of `VkLayerInstanceDispatchTable` that the layer fills and reads. -/
structure VkLayerInstanceDispatchTable where
  GetInstanceProcAddr : PFN_vkVoidFunction
  DestroyInstance : PFN_vkVoidFunction
  EnumerateDeviceExtensionProperties : PFN_vkVoidFunction
  EnumeratePhysicalDevices : PFN_vkVoidFunction
  EnumeratePhysicalDeviceGroups : PFN_vkVoidFunction
  EnumeratePhysicalDeviceGroupsKHR : PFN_vkVoidFunction
  deriving DecidableEq, Repr

/-- The fields of `VkLayerDispatchTable` that the layer fills and reads. -/
structure VkLayerDispatchTable where
  GetDeviceProcAddr : PFN_vkVoidFunction
  DestroyDevice : PFN_vkVoidFunction
  deriving DecidableEq, Repr

/-- Value-initialised table, as inserted by `std::map::operator[]`: all pointers null. -/
instance : Inhabited VkLayerInstanceDispatchTable := ⟨⟨0, 0, 0, 0, 0, 0⟩⟩

/-- Value-initialised table, as inserted by `std::map::operator[]`: all pointers null. -/
instance : Inhabited VkLayerDispatchTable := ⟨⟨0, 0⟩⟩

/-- One element of a `VkLayerInstanceLink` / `VkLayerDeviceLink` list (`pLayerInfo`). -/
structure VkLayerLink where
  pfnNextGetInstanceProcAddr : PFN_vkVoidFunction
  pfnNextGetDeviceProcAddr : PFN_vkVoidFunction
  deriving DecidableEq, Repr

/-- One structure of a `pNext` chain, read as `VkLayerInstanceCreateInfo` /
`VkLayerDeviceCreateInfo`: `u.pLayerInfo` is a linked list, `[]` being the null pointer. -/
structure VkLayerCreateInfo where
  sType : Nat
  function : Nat
  pLayerInfo : List VkLayerLink
  deriving DecidableEq, Repr

/-- The part of `VkInstanceCreateInfo` / `VkDeviceCreateInfo` the layer looks at: the
`pNext` chain. -/
structure VkCreateInfo where
  pNext : List VkLayerCreateInfo
  deriving DecidableEq, Repr

/-! ## The world outside the layer -/

/-- What a Vulkan enumeration call leaves behind: its return code, the value it stores
through the count pointer and the contents it leaves in the output array. -/
structure EnumOut (α : Type) where
  result : VkResult
  count : Nat
  data : List α

/-- Behaviour of the code reached through function pointers.  The first argument of
every field is the function pointer that is called. -/
structure NextLayer where
  GetInstanceProcAddr : PFN_vkVoidFunction → Option VkInstance → String → PFN_vkVoidFunction
  GetDeviceProcAddr : PFN_vkVoidFunction → VkDevice → String → PFN_vkVoidFunction
  CreateInstance : PFN_vkVoidFunction → VkCreateInfo → Nat → VkResult × VkInstance
  CreateDevice : PFN_vkVoidFunction → VkPhysicalDevice → VkCreateInfo → Nat → VkResult × VkDevice
  EnumeratePhysicalDevices : PFN_vkVoidFunction → VkInstance → Option Nat →
    Option (List VkPhysicalDevice) → EnumOut VkPhysicalDevice
  EnumeratePhysicalDeviceGroups : PFN_vkVoidFunction → VkInstance → Option Nat →
    Option (List VkPhysicalDeviceGroupProperties) → EnumOut VkPhysicalDeviceGroupProperties

/-- Calls that leave the layer, with their arguments. -/
inductive Event where
  | GetInstanceProcAddr (pfn : PFN_vkVoidFunction) (inst : Option VkInstance) (pName : String)
  | GetDeviceProcAddr (pfn : PFN_vkVoidFunction) (device : VkDevice) (pName : String)
  | CreateInstance (pfn : PFN_vkVoidFunction) (pCreateInfo : VkCreateInfo) (pAllocator : Nat)
  | DestroyInstance (pfn : PFN_vkVoidFunction) (inst : VkInstance) (pAllocator : Nat)
  | CreateDevice (pfn : PFN_vkVoidFunction) (physicalDevice : VkPhysicalDevice)
      (pCreateInfo : VkCreateInfo) (pAllocator : Nat)
  | DestroyDevice (pfn : PFN_vkVoidFunction) (device : VkDevice) (pAllocator : Nat)
  | EnumeratePhysicalDevices (pfn : PFN_vkVoidFunction) (inst : VkInstance)
      (pCount : Option Nat) (pDevices : Option (List VkPhysicalDevice))
  | EnumeratePhysicalDeviceGroups (pfn : PFN_vkVoidFunction) (inst : VkInstance)
      (pCount : Option Nat) (pGroups : Option (List VkPhysicalDeviceGroupProperties))
  | atoi (s : String)
  | printf (line : String)
  | fprintf_stderr (line : String)

/-- Lines written to the standard output stream, in order. -/
def stdoutOf : List Event → List String
  | [] => []
  | Event.printf s :: t => s :: stdoutOf t
  | _ :: t => stdoutOf t

/-- Lines written to the standard error stream, in order. -/
def stderrOf : List Event → List String
  | [] => []
  | Event.fprintf_stderr s :: t => s :: stderrOf t
  | _ :: t => stderrOf t

/-- Arguments of `atoi` calls, in order. -/
def parsedOf : List Event → List String
  | [] => []
  | Event.atoi s :: t => s :: parsedOf t
  | _ :: t => parsedOf t

/-! ## libc: `atoi` -/

/-- The function `isspace` in the C locale. -/
def isspace (c : Char) : Bool := c.toNat = 32 || (9 ≤ c.toNat && c.toNat ≤ 13)

/-- The function `isdigit`. -/
def isdigit (c : Char) : Bool := 48 ≤ c.toNat && c.toNat ≤ 57

/-- Value of the longest prefix of decimal digits, accumulated left to right. -/
def digitsValue : List Char → Nat → Nat
  | [], acc => acc
  | c :: cs, acc => if isdigit c then digitsValue cs (acc * 10 + (c.toNat - 48)) else acc

/-- Mathematical value read by `strtol(s, NULL, 10)`: white space, an optional sign,
then the longest run of decimal digits (`0` when there is none). -/
def strtolValue (s : List Char) : Int :=
  match s.dropWhile isspace with
  | '-' :: r => -(digitsValue r 0 : Int)
  | '+' :: r => (digitsValue r 0 : Int)
  | r => (digitsValue r 0 : Int)

/-- Conversion of a `long` to `int` (low 32 bits, two's complement). -/
def toInt32 (v : Int) : Int := (v + 2147483648) % 4294967296 - 2147483648

/-- The libc function `atoi`, as `(int) strtol(s, NULL, 10)` with a 64-bit `long`: values
outside the range of `long` saturate, the result keeps the low 32 bits.  (ISO C leaves
the result undefined when the value does not fit an `int`.) -/
def atoi (s : String) : Int :=
  toInt32 (max (-9223372036854775808) (min (strtolValue s.toList) 9223372036854775807))

/-- The conversion `static_cast<uint32_t>` of an `int`. -/
def toUInt32 (i : Int) : Nat := (i % 4294967296).toNat

/-! ## `std::map<void*, T>` -/

/-- A `std::map` with pointer keys, as an association list. -/
abbrev StdMap (V : Type) := List (Nat × V)

namespace StdMap

variable {V : Type}

/-- Lookup without insertion (`find`). -/
def find : StdMap V → Nat → Option V
  | [], _ => none
  | (k', v) :: m, k => if k' = k then some v else find m k

/-- Read access `m[k]`: the stored value, or a value-initialised one that is inserted
when the key is missing. -/
def subscript [Inhabited V] (m : StdMap V) (k : Nat) : V × StdMap V :=
  match find m k with
  | some v => (v, m)
  | none => (default, (k, default) :: m)

end StdMap

/-! ## Global state of the layer -/

/-- The two global registries `gInstanceDispatch` and `gDeviceDispatch`. -/
structure LayerState where
  gInstanceDispatch : StdMap VkLayerInstanceDispatchTable
  gDeviceDispatch : StdMap VkLayerDispatchTable
  deriving DecidableEq, Repr

/-- Name of the environment variable that holds the device index. -/
def kEnvVariable : String := "VULKAN_DEVICE_INDEX"

/-- The layer name the extension enumeration compares `pLayerName` with. -/
def kLayerName : String := "VK_LAYER_AEJS_DeviceChooserLayer"

/-- `GetKey`: the first machine word of a dispatchable object. -/
def GetKey (object : Dispatchable) : Nat := object.word0

/-- `GetInstanceDispatch`: `gInstanceDispatch[GetKey(object)]`. -/
def GetInstanceDispatch (st : LayerState) (object : Dispatchable) :
    VkLayerInstanceDispatchTable × LayerState :=
  let r := StdMap.subscript st.gInstanceDispatch (GetKey object)
  (r.1, { st with gInstanceDispatch := r.2 })

/-- `GetDeviceDispatch`: `gDeviceDispatch[GetKey(object)]`. -/
def GetDeviceDispatch (st : LayerState) (object : Dispatchable) :
    VkLayerDispatchTable × LayerState :=
  let r := StdMap.subscript st.gDeviceDispatch (GetKey object)
  (r.1, { st with gDeviceDispatch := r.2 })

/-- `GetEnv`: the value of an environment variable, or null.  The process environment
is the parameter `environ`. -/
def GetEnv (environ : String → Option String) (varName : String) : Option String :=
  environ varName

/-! ## Device selection -/

/-- Result of `ChooseDevice`: the return code, the value stored through `outDevice`
(`none` when nothing is stored) and the calls made. -/
structure ChooseRet where
  result : VkResult
  outDevice : Option VkPhysicalDevice
  trace : List Event

/-- The text `fprintf(stderr, ...)` writes for an index out of bounds (`%d`, `%u`). -/
def warningLine (deviceIndex : Int) (count : Nat) : String :=
  "[DeviceChooserLayer] Warning: Device index \x27" ++ toString deviceIndex ++
    "\x27 is out of bounds (found " ++ toString count ++
    " devices). Falling back to device 0.\n"

/-- The text `printf` writes for an index in bounds (`%d`). -/
def infoLine (deviceIndex : Int) : String :=
  "[DeviceChooserLayer] Using Vulkan device index " ++ toString deviceIndex ++ "\n"

/-- The function `ChooseDevice`.  The vector `devices` has `count` elements, all null
handles, when it is handed to the next layer (`devices`), and the same number of elements,
with the contents the next layer left, afterwards (`devices1`). -/
def ChooseDevice (N : NextLayer) (inst : VkInstance) (dispatch : VkLayerInstanceDispatchTable)
    (env : String) : Option ChooseRet :=
  let pfn := dispatch.EnumeratePhysicalDevices
  if pfn = 0 then none
  else
    let q := N.EnumeratePhysicalDevices pfn inst (some 0) none
    let t1 := [Event.EnumeratePhysicalDevices pfn inst (some 0) none]
    if q.result ≠ VK_SUCCESS then some ⟨q.result, none, t1⟩
    else if q.count = 0 then some ⟨VK_SUCCESS, some VK_NULL_HANDLE, t1⟩
    else
      let devices := List.replicate q.count VK_NULL_HANDLE
      let f := N.EnumeratePhysicalDevices pfn inst (some q.count) (some devices)
      let t2 := t1 ++ [Event.EnumeratePhysicalDevices pfn inst (some q.count) (some devices)]
      if f.result ≠ VK_SUCCESS then some ⟨f.result, none, t2⟩
      else
        let deviceIndex := atoi env
        let t3 := t2 ++ [Event.atoi env]
        let devices1 := f.data.take q.count
        if deviceIndex < 0 ∨ toUInt32 deviceIndex ≥ f.count then
          match devices1[0]? with
          | none => none
          | some d =>
            some ⟨VK_SUCCESS, some d, t3 ++ [Event.fprintf_stderr (warningLine deviceIndex f.count)]⟩
        else
          match devices1[deviceIndex.toNat]? with
          | none => none
          | some d => some ⟨VK_SUCCESS, some d, t3 ++ [Event.printf (infoLine deviceIndex)]⟩

/-- What an enumeration entry point leaves behind: return code, the caller's count and
array after the call, the calls made and the global state. -/
structure EnumRet (α : Type) where
  result : VkResult
  pCount : Option Nat
  pData : Option (List α)
  trace : List Event
  state : LayerState

/-- The entry point `DeviceChooserLayer_EnumeratePhysicalDevices`. -/
def DeviceChooserLayer_EnumeratePhysicalDevices (N : NextLayer) (environ : String → Option String)
    (st : LayerState) (inst : VkInstance) (pPhysicalDeviceCount : Option Nat)
    (pPhysicalDevices : Option (List VkPhysicalDevice)) : Option (EnumRet VkPhysicalDevice) :=
  let (dispatch, st1) := GetInstanceDispatch st inst
  match GetEnv environ kEnvVariable with
  | none =>
    if dispatch.EnumeratePhysicalDevices = 0 then none
    else
      let o := N.EnumeratePhysicalDevices dispatch.EnumeratePhysicalDevices inst
        pPhysicalDeviceCount pPhysicalDevices
      some ⟨o.result, pPhysicalDeviceCount.map (fun _ => o.count),
        pPhysicalDevices.map (fun _ => o.data),
        [Event.EnumeratePhysicalDevices dispatch.EnumeratePhysicalDevices inst
          pPhysicalDeviceCount pPhysicalDevices], st1⟩
  | some env =>
    match ChooseDevice N inst dispatch env with
    | none => none
    | some c =>
      if c.result ≠ VK_SUCCESS then
        some ⟨c.result, pPhysicalDeviceCount, pPhysicalDevices, c.trace, st1⟩
      else
        match c.outDevice with
        | none => none
        | some device =>
          if device = VK_NULL_HANDLE then
            match pPhysicalDeviceCount with
            | none => none
            | some _ => some ⟨VK_SUCCESS, some 0, pPhysicalDevices, c.trace, st1⟩
          else
            match pPhysicalDevices with
            | none =>
              match pPhysicalDeviceCount with
              | none => none
              | some _ => some ⟨VK_SUCCESS, some 1, none, c.trace, st1⟩
            | some buf =>
              match pPhysicalDeviceCount with
              | none => none
              | some cap =>
                if cap > 0 then
                  match buf with
                  | [] => none
                  | _ :: rest => some ⟨VK_SUCCESS, some 1, some (device :: rest), c.trace, st1⟩
                else some ⟨VK_SUCCESS, some cap, some buf, c.trace, st1⟩

/-- Store of the single-device group into `pPhysicalDeviceGroups[0]`. -/
def fillGroup (g : VkPhysicalDeviceGroupProperties) (device : VkPhysicalDevice) :
    VkPhysicalDeviceGroupProperties :=
  { g with
    physicalDeviceCount := 1
    physicalDevices := Function.update g.physicalDevices 0 device
    subsetAllocation := VK_FALSE }

/-- The entry point `DeviceChooserLayer_EnumeratePhysicalDeviceGroups`. -/
def DeviceChooserLayer_EnumeratePhysicalDeviceGroups (N : NextLayer)
    (environ : String → Option String) (st : LayerState) (inst : VkInstance)
    (pPhysicalDeviceGroupCount : Option Nat)
    (pPhysicalDeviceGroups : Option (List VkPhysicalDeviceGroupProperties)) :
    Option (EnumRet VkPhysicalDeviceGroupProperties) :=
  let (dispatch, st1) := GetInstanceDispatch st inst
  match GetEnv environ kEnvVariable with
  | none =>
    if dispatch.EnumeratePhysicalDeviceGroups = 0 then none
    else
      let o := N.EnumeratePhysicalDeviceGroups dispatch.EnumeratePhysicalDeviceGroups inst
        pPhysicalDeviceGroupCount pPhysicalDeviceGroups
      some ⟨o.result, pPhysicalDeviceGroupCount.map (fun _ => o.count),
        pPhysicalDeviceGroups.map (fun _ => o.data),
        [Event.EnumeratePhysicalDeviceGroups dispatch.EnumeratePhysicalDeviceGroups inst
          pPhysicalDeviceGroupCount pPhysicalDeviceGroups], st1⟩
  | some env =>
    match ChooseDevice N inst dispatch env with
    | none => none
    | some c =>
      if c.result ≠ VK_SUCCESS then
        some ⟨c.result, pPhysicalDeviceGroupCount, pPhysicalDeviceGroups, c.trace, st1⟩
      else
        match c.outDevice with
        | none => none
        | some device =>
          if device = VK_NULL_HANDLE then
            match pPhysicalDeviceGroupCount with
            | none => none
            | some _ => some ⟨VK_SUCCESS, some 0, pPhysicalDeviceGroups, c.trace, st1⟩
          else
            match pPhysicalDeviceGroups with
            | none =>
              match pPhysicalDeviceGroupCount with
              | none => none
              | some _ => some ⟨VK_SUCCESS, some 1, none, c.trace, st1⟩
            | some buf =>
              match pPhysicalDeviceGroupCount with
              | none => none
              | some cap =>
                if cap > 0 then
                  match buf with
                  | [] => none
                  | g :: rest =>
                    some ⟨VK_SUCCESS, some 1, some (fillGroup g device :: rest), c.trace, st1⟩
                else some ⟨VK_SUCCESS, some cap, some buf, c.trace, st1⟩

/-- The entry point `DeviceChooserLayer_EnumeratePhysicalDeviceGroupsKHR`. -/
def DeviceChooserLayer_EnumeratePhysicalDeviceGroupsKHR (N : NextLayer)
    (environ : String → Option String) (st : LayerState) (inst : VkInstance)
    (pPhysicalDeviceGroupCount : Option Nat)
    (pPhysicalDeviceGroups : Option (List VkPhysicalDeviceGroupProperties)) :
    Option (EnumRet VkPhysicalDeviceGroupProperties) :=
  DeviceChooserLayer_EnumeratePhysicalDeviceGroups N environ st inst pPhysicalDeviceGroupCount
    pPhysicalDeviceGroups

/-! ## Object creation and destruction -/

/-- The entry point `DeviceChooserLayer_EnumerateInstanceExtensionProperties`: the return
code and the caller's property count after the call. -/
def DeviceChooserLayer_EnumerateInstanceExtensionProperties (pLayerName : Option String)
    (pPropertyCount : Option Nat) : VkResult × Option Nat :=
  match pLayerName with
  | none => (VK_ERROR_LAYER_NOT_PRESENT, pPropertyCount)
  | some name =>
    if name ≠ kLayerName then (VK_ERROR_LAYER_NOT_PRESENT, pPropertyCount)
    else (VK_SUCCESS, pPropertyCount.map (fun _ => 0))

/-- The next layer's `vkEnumeratePhysicalDevices`, reached through `pfn`, successfully
reports the device list `devs` for `inst`: the count query stores `devs.length`, and, when
there is a device, the fetch into an array of that many null handles stores `devs`. -/
def ReportsDevices (N : NextLayer) (pfn : PFN_vkVoidFunction) (inst : VkInstance)
    (devs : List VkPhysicalDevice) : Prop :=
  pfn ≠ 0 ∧
  (N.EnumeratePhysicalDevices pfn inst (some 0) none).result = VK_SUCCESS ∧
  (N.EnumeratePhysicalDevices pfn inst (some 0) none).count = devs.length ∧
  (devs ≠ [] →
    (N.EnumeratePhysicalDevices pfn inst (some devs.length)
      (some (List.replicate devs.length VK_NULL_HANDLE))).result = VK_SUCCESS ∧
    (N.EnumeratePhysicalDevices pfn inst (some devs.length)
      (some (List.replicate devs.length VK_NULL_HANDLE))).count = devs.length ∧
    (N.EnumeratePhysicalDevices pfn inst (some devs.length)
      (some (List.replicate devs.length VK_NULL_HANDLE))).data = devs)

instance (N : NextLayer) (pfn : PFN_vkVoidFunction) (inst : VkInstance)
    (devs : List VkPhysicalDevice) : Decidable (ReportsDevices N pfn inst devs) := by
  unfold ReportsDevices
  infer_instance

/-- The count query `ChooseDevice` issues. -/
def countQuery (pfn : PFN_vkVoidFunction) (inst : VkInstance) : Event :=
  Event.EnumeratePhysicalDevices pfn inst (some 0) none

/-- The list fetch `ChooseDevice` issues for a count of `n`. -/
def listFetch (pfn : PFN_vkVoidFunction) (inst : VkInstance) (n : Nat) : Event :=
  Event.EnumeratePhysicalDevices pfn inst (some n) (some (List.replicate n VK_NULL_HANDLE))

/-- Index `ChooseDevice` ends up using for the configuration text `env` when the next
layer reports `n` devices. -/
def resolvedIndex (env : String) (n : Nat) : Nat :=
  if atoi env < 0 ∨ (n : Int) ≤ atoi env then 0 else (atoi env).toNat

/-- The diagnostic `ChooseDevice` prints for the configuration text `env` when the next
layer reports `n` devices. -/
def diagnostic (env : String) (n : Nat) : Event :=
  if atoi env < 0 ∨ (n : Int) ≤ atoi env then Event.fprintf_stderr (warningLine (atoi env) n)
  else Event.printf (infoLine (atoi env))

/-- All calls of a `ChooseDevice` run that reaches the selection. -/
def selectionTrace (pfn : PFN_vkVoidFunction) (inst : VkInstance) (n : Nat) (env : String) :
    List Event :=
  [countQuery pfn inst, listFetch pfn inst n, Event.atoi env, diagnostic env n]

/-! ## A sample next layer -/

/-- Vulkan's count-then-fill convention, for a callee that owns the list `items`. -/
def enumerateFrom {α : Type} (items : List α) (pCount : Option Nat) (pData : Option (List α)) :
    EnumOut α :=
  match pData with
  | none => ⟨VK_SUCCESS, items.length, []⟩
  | some buf =>
    ⟨if min (pCount.getD 0) items.length < items.length then VK_INCOMPLETE else VK_SUCCESS,
      min (pCount.getD 0) items.length,
      items.take (min (pCount.getD 0) items.length) ++ buf.drop (min (pCount.getD 0) items.length)⟩

/-- A device group holding the single device `d`. -/
def sampleGroup (d : VkPhysicalDevice) : VkPhysicalDeviceGroupProperties :=
  ⟨1000070000, 0, 1, fun i => if i = 0 then d else VK_NULL_HANDLE, 1⟩

/-- A next layer with the physical devices `devs`, every device in a group of its own,
whose create calls return `ret` and the handle `fresh`. -/
def sampleNext (devs : List VkPhysicalDevice) (ret : VkResult) (fresh : Dispatchable) :
    NextLayer where
  GetInstanceProcAddr := fun _ _ pName => 4096 + pName.length
  GetDeviceProcAddr := fun _ _ pName => 8192 + pName.length
  CreateInstance := fun _ _ _ => (ret, fresh)
  CreateDevice := fun _ _ _ _ => (ret, fresh)
  EnumeratePhysicalDevices := fun _ _ pCount pData => enumerateFrom devs pCount pData
  EnumeratePhysicalDeviceGroups := fun _ _ pCount pData =>
    enumerateFrom (devs.map sampleGroup) pCount pData

/-- An instance handle. -/
def sampleInstance : VkInstance := ⟨65536, 512⟩

/-- The instance dispatch table of `sampleInstance` under `sampleNext`. -/
def sampleTable : VkLayerInstanceDispatchTable := ⟨4100, 4113, 4132, 4122, 4127, 4130⟩

/-- A state of the layer in which `sampleInstance` is registered. -/
def sampleState : LayerState := ⟨[(512, sampleTable)], []⟩

/-- A process environment in which `VULKAN_DEVICE_INDEX` has the value `v`. -/
def sampleEnviron (v : Option String) : String → Option String :=
  fun name => if name = "VULKAN_DEVICE_INDEX" then v else none

/-- A next layer whose `vkEnumeratePhysicalDevices` fails with `r`: on the count query
when `n = 0`, and otherwise on the list fetch that follows a count of `n`. -/
def failingNext (r : VkResult) (n : Nat) : NextLayer where
  GetInstanceProcAddr := fun _ _ pName => 4096 + pName.length
  GetDeviceProcAddr := fun _ _ pName => 8192 + pName.length
  CreateInstance := fun _ _ _ => (r, sampleInstance)
  CreateDevice := fun _ _ _ _ => (r, sampleInstance)
  EnumeratePhysicalDevices := fun _ _ _ pData =>
    match pData with
    | none => if n = 0 then ⟨r, 0, []⟩ else ⟨VK_SUCCESS, n, []⟩
    | some buf => ⟨r, 0, buf⟩
  EnumeratePhysicalDeviceGroups := fun _ _ _ pData => ⟨r, 0, pData.getD []⟩

/-- No configuration parsing and no diagnostic output among the calls `tr`. -/
def Silent (tr : List Event) : Prop :=
  parsedOf tr = [] ∧ stdoutOf tr = [] ∧ stderrOf tr = []

/-! ## Sequences of calls into the layer -/

theorem atoi_lower (s : String) : -2147483648 ≤ atoi s := by
  unfold atoi toInt32
  omega

theorem atoi_upper (s : String) : atoi s < 2147483648 := by
  unfold atoi toInt32
  omega

theorem toUInt32_of_nonneg (i : Int) (h0 : 0 ≤ i) (h1 : i < 2147483648) :
    toUInt32 i = i.toNat := by
  unfold toUInt32
  congr 1
  omega

theorem toUInt32_le (i : Int) (h0 : 0 ≤ i) : toUInt32 i ≤ i.toNat := by
  unfold toUInt32
  omega

theorem subscript_of_find {V : Type} [Inhabited V] (m : StdMap V) (k : Nat) (v : V)
    (h : StdMap.find m k = some v) : StdMap.subscript m k = (v, m) := by
  simp [StdMap.subscript, h]

theorem GetInstanceDispatch_live (st : LayerState) (inst : VkInstance)
    (dispatch : VkLayerInstanceDispatchTable)
    (h : StdMap.find st.gInstanceDispatch (GetKey inst) = some dispatch) :
    GetInstanceDispatch st inst = (dispatch, st) := by
  simp [GetInstanceDispatch, subscript_of_find _ _ _ h]

theorem GetDeviceDispatch_live (st : LayerState) (device : VkDevice)
    (dispatch : VkLayerDispatchTable)
    (h : StdMap.find st.gDeviceDispatch (GetKey device) = some dispatch) :
    GetDeviceDispatch st device = (dispatch, st) := by
  simp [GetDeviceDispatch, subscript_of_find _ _ _ h]

/-! ## `ChooseDevice` -/

theorem ChooseDevice_count_failure (N : NextLayer) (inst : VkInstance)
    (dispatch : VkLayerInstanceDispatchTable) (env : String)
    (hpfn : dispatch.EnumeratePhysicalDevices ≠ 0)
    (hr : (N.EnumeratePhysicalDevices dispatch.EnumeratePhysicalDevices inst (some 0) none).result
      ≠ VK_SUCCESS) :
    ChooseDevice N inst dispatch env =
      some ⟨(N.EnumeratePhysicalDevices dispatch.EnumeratePhysicalDevices inst (some 0) none).result,
        none, [countQuery dispatch.EnumeratePhysicalDevices inst]⟩ := by
  simp [ChooseDevice, hpfn, hr, countQuery]

theorem ChooseDevice_no_device (N : NextLayer) (inst : VkInstance)
    (dispatch : VkLayerInstanceDispatchTable) (env : String)
    (hpfn : dispatch.EnumeratePhysicalDevices ≠ 0)
    (hr : (N.EnumeratePhysicalDevices dispatch.EnumeratePhysicalDevices inst (some 0) none).result
      = VK_SUCCESS)
    (hc : (N.EnumeratePhysicalDevices dispatch.EnumeratePhysicalDevices inst (some 0) none).count
      = 0) :
    ChooseDevice N inst dispatch env =
      some ⟨VK_SUCCESS, some VK_NULL_HANDLE, [countQuery dispatch.EnumeratePhysicalDevices inst]⟩ := by
  simp [ChooseDevice, hpfn, hr, hc, countQuery]

theorem ChooseDevice_fetch_failure (N : NextLayer) (inst : VkInstance)
    (dispatch : VkLayerInstanceDispatchTable) (env : String) (n : Nat)
    (hpfn : dispatch.EnumeratePhysicalDevices ≠ 0)
    (hr : (N.EnumeratePhysicalDevices dispatch.EnumeratePhysicalDevices inst (some 0) none).result
      = VK_SUCCESS)
    (hc : (N.EnumeratePhysicalDevices dispatch.EnumeratePhysicalDevices inst (some 0) none).count
      = n)
    (hn : n ≠ 0)
    (hf : (N.EnumeratePhysicalDevices dispatch.EnumeratePhysicalDevices inst (some n)
      (some (List.replicate n VK_NULL_HANDLE))).result ≠ VK_SUCCESS) :
    ChooseDevice N inst dispatch env =
      some ⟨(N.EnumeratePhysicalDevices dispatch.EnumeratePhysicalDevices inst (some n)
          (some (List.replicate n VK_NULL_HANDLE))).result, none,
        [countQuery dispatch.EnumeratePhysicalDevices inst,
         listFetch dispatch.EnumeratePhysicalDevices inst n]⟩ := by
  simp [ChooseDevice, hpfn, hr, hc, hn, hf, countQuery, listFetch]

theorem ChooseDevice_in_range (N : NextLayer) (inst : VkInstance)
    (dispatch : VkLayerInstanceDispatchTable) (env : String) (devs : List VkPhysicalDevice)
    (d : VkPhysicalDevice)
    (hdev : ReportsDevices N dispatch.EnumeratePhysicalDevices inst devs)
    (h0 : 0 ≤ atoi env) (hN : atoi env < devs.length)
    (hd : devs[(atoi env).toNat]? = some d) :
    ChooseDevice N inst dispatch env =
      some ⟨VK_SUCCESS, some d,
        [countQuery dispatch.EnumeratePhysicalDevices inst,
         listFetch dispatch.EnumeratePhysicalDevices inst devs.length,
         Event.atoi env, Event.printf (infoLine (atoi env))]⟩ := by
  obtain ⟨hpfn, hqr, hqc, hf⟩ := hdev
  have hlen : devs.length ≠ 0 := by omega
  obtain ⟨hfr, hfc, hfd⟩ := hf (fun h => hlen (by rw [h]; rfl))
  have hu : toUInt32 (atoi env) < devs.length := by
    have := toUInt32_le (atoi env) h0
    omega
  have hcond : ¬ (atoi env < 0 ∨ toUInt32 (atoi env) ≥ devs.length) := by omega
  simp only [ChooseDevice, hpfn, hqr, hqc, hlen, hfr, hfc, hfd, List.take_length, hd, hcond,
    countQuery, listFetch]
  simp

theorem ChooseDevice_out_of_range (N : NextLayer) (inst : VkInstance)
    (dispatch : VkLayerInstanceDispatchTable) (env : String) (devs : List VkPhysicalDevice)
    (d : VkPhysicalDevice)
    (hdev : ReportsDevices N dispatch.EnumeratePhysicalDevices inst devs)
    (hI : atoi env < 0 ∨ (devs.length : Int) ≤ atoi env)
    (hd : devs[0]? = some d) :
    ChooseDevice N inst dispatch env =
      some ⟨VK_SUCCESS, some d,
        [countQuery dispatch.EnumeratePhysicalDevices inst,
         listFetch dispatch.EnumeratePhysicalDevices inst devs.length,
         Event.atoi env, Event.fprintf_stderr (warningLine (atoi env) devs.length)]⟩ := by
  obtain ⟨hpfn, hqr, hqc, hf⟩ := hdev
  have hlen : devs.length ≠ 0 := by
    intro h
    have : devs = [] := List.length_eq_zero.mp h
    simp [this] at hd
  obtain ⟨hfr, hfc, hfd⟩ := hf (fun h => hlen (by rw [h]; rfl))
  have hcond : atoi env < 0 ∨ toUInt32 (atoi env) ≥ devs.length := by
    rcases hI with h | h
    · exact Or.inl h
    · right
      have h0 : 0 ≤ atoi env := by omega
      rw [toUInt32_of_nonneg _ h0 (atoi_upper env)]
      omega
  simp only [ChooseDevice, hpfn, hqr, hqc, hlen, hfr, hfc, hfd, List.take_length, hd, hcond,
    countQuery, listFetch]
  simp

theorem ChooseDevice_selects (N : NextLayer) (inst : VkInstance)
    (dispatch : VkLayerInstanceDispatchTable) (env : String) (devs : List VkPhysicalDevice)
    (d : VkPhysicalDevice)
    (hdev : ReportsDevices N dispatch.EnumeratePhysicalDevices inst devs)
    (hd : devs[resolvedIndex env devs.length]? = some d) :
    ChooseDevice N inst dispatch env =
      some ⟨VK_SUCCESS, some d,
        selectionTrace dispatch.EnumeratePhysicalDevices inst devs.length env⟩ := by
  by_cases h : atoi env < 0 ∨ (devs.length : Int) ≤ atoi env
  · have hd0 : devs[0]? = some d := by simpa [resolvedIndex, h] using hd
    rw [ChooseDevice_out_of_range N inst dispatch env devs d hdev h hd0]
    simp [selectionTrace, diagnostic, h]
  · have hd1 : devs[(atoi env).toNat]? = some d := by simpa [resolvedIndex, h] using hd
    rw [ChooseDevice_in_range N inst dispatch env devs d hdev (by omega) (by omega) hd1]
    simp [selectionTrace, diagnostic, h]

theorem resolvedIndex_lt (env : String) (n : Nat) (hn : 0 < n) : resolvedIndex env n < n := by
  unfold resolvedIndex
  split
  · exact hn
  · omega

/-! ## The enumeration entry points after `ChooseDevice` -/

theorem EnumeratePhysicalDevices_of_failure (N : NextLayer) (environ : String → Option String)
    (st : LayerState) (inst : VkInstance) (dispatch : VkLayerInstanceDispatchTable)
    (env : String) (r : VkResult) (tr : List Event)
    (pCount : Option Nat) (pData : Option (List VkPhysicalDevice))
    (henv : GetEnv environ kEnvVariable = some env)
    (hlive : StdMap.find st.gInstanceDispatch (GetKey inst) = some dispatch)
    (hc : ChooseDevice N inst dispatch env = some ⟨r, none, tr⟩) (hr : r ≠ VK_SUCCESS) :
    DeviceChooserLayer_EnumeratePhysicalDevices N environ st inst pCount pData =
      some ⟨r, pCount, pData, tr, st⟩ := by
  simp [DeviceChooserLayer_EnumeratePhysicalDevices, GetInstanceDispatch_live _ _ _ hlive, henv,
    hc, hr]

theorem EnumeratePhysicalDeviceGroups_of_failure (N : NextLayer)
    (environ : String → Option String)
    (st : LayerState) (inst : VkInstance) (dispatch : VkLayerInstanceDispatchTable)
    (env : String) (r : VkResult) (tr : List Event)
    (pCount : Option Nat) (pData : Option (List VkPhysicalDeviceGroupProperties))
    (henv : GetEnv environ kEnvVariable = some env)
    (hlive : StdMap.find st.gInstanceDispatch (GetKey inst) = some dispatch)
    (hc : ChooseDevice N inst dispatch env = some ⟨r, none, tr⟩) (hr : r ≠ VK_SUCCESS) :
    DeviceChooserLayer_EnumeratePhysicalDeviceGroups N environ st inst pCount pData =
      some ⟨r, pCount, pData, tr, st⟩ := by
  simp [DeviceChooserLayer_EnumeratePhysicalDeviceGroups, GetInstanceDispatch_live _ _ _ hlive,
    henv, hc, hr]

theorem EnumeratePhysicalDevices_of_no_device (N : NextLayer) (environ : String → Option String)
    (st : LayerState) (inst : VkInstance) (dispatch : VkLayerInstanceDispatchTable)
    (env : String) (tr : List Event) (cap : Nat) (pData : Option (List VkPhysicalDevice))
    (henv : GetEnv environ kEnvVariable = some env)
    (hlive : StdMap.find st.gInstanceDispatch (GetKey inst) = some dispatch)
    (hc : ChooseDevice N inst dispatch env = some ⟨VK_SUCCESS, some VK_NULL_HANDLE, tr⟩) :
    DeviceChooserLayer_EnumeratePhysicalDevices N environ st inst (some cap) pData =
      some ⟨VK_SUCCESS, some 0, pData, tr, st⟩ := by
  simp [DeviceChooserLayer_EnumeratePhysicalDevices, GetInstanceDispatch_live _ _ _ hlive, henv,
    hc]

theorem EnumeratePhysicalDeviceGroups_of_no_device (N : NextLayer)
    (environ : String → Option String)
    (st : LayerState) (inst : VkInstance) (dispatch : VkLayerInstanceDispatchTable)
    (env : String) (tr : List Event) (cap : Nat)
    (pData : Option (List VkPhysicalDeviceGroupProperties))
    (henv : GetEnv environ kEnvVariable = some env)
    (hlive : StdMap.find st.gInstanceDispatch (GetKey inst) = some dispatch)
    (hc : ChooseDevice N inst dispatch env = some ⟨VK_SUCCESS, some VK_NULL_HANDLE, tr⟩) :
    DeviceChooserLayer_EnumeratePhysicalDeviceGroups N environ st inst (some cap) pData =
      some ⟨VK_SUCCESS, some 0, pData, tr, st⟩ := by
  simp [DeviceChooserLayer_EnumeratePhysicalDeviceGroups, GetInstanceDispatch_live _ _ _ hlive,
    henv, hc]

theorem EnumeratePhysicalDevices_of_device (N : NextLayer) (environ : String → Option String)
    (st : LayerState) (inst : VkInstance) (dispatch : VkLayerInstanceDispatchTable)
    (env : String) (d : VkPhysicalDevice) (tr : List Event)
    (henv : GetEnv environ kEnvVariable = some env)
    (hlive : StdMap.find st.gInstanceDispatch (GetKey inst) = some dispatch)
    (hc : ChooseDevice N inst dispatch env = some ⟨VK_SUCCESS, some d, tr⟩)
    (hd : d ≠ VK_NULL_HANDLE) :
    (∀ cap : Nat, DeviceChooserLayer_EnumeratePhysicalDevices N environ st inst (some cap) none =
      some ⟨VK_SUCCESS, some 1, none, tr, st⟩) ∧
    (∀ (cap : Nat) (b : VkPhysicalDevice) (rest : List VkPhysicalDevice), 0 < cap →
      DeviceChooserLayer_EnumeratePhysicalDevices N environ st inst (some cap) (some (b :: rest)) =
        some ⟨VK_SUCCESS, some 1, some (d :: rest), tr, st⟩) := by
  constructor
  · intro cap
    simp [DeviceChooserLayer_EnumeratePhysicalDevices, GetInstanceDispatch_live _ _ _ hlive, henv,
      hc, hd]
  · intro cap b rest hcap
    simp [DeviceChooserLayer_EnumeratePhysicalDevices, GetInstanceDispatch_live _ _ _ hlive, henv,
      hc, hd, hcap]

theorem EnumeratePhysicalDeviceGroups_of_device (N : NextLayer)
    (environ : String → Option String)
    (st : LayerState) (inst : VkInstance) (dispatch : VkLayerInstanceDispatchTable)
    (env : String) (d : VkPhysicalDevice) (tr : List Event)
    (henv : GetEnv environ kEnvVariable = some env)
    (hlive : StdMap.find st.gInstanceDispatch (GetKey inst) = some dispatch)
    (hc : ChooseDevice N inst dispatch env = some ⟨VK_SUCCESS, some d, tr⟩)
    (hd : d ≠ VK_NULL_HANDLE) :
    (∀ cap : Nat,
      DeviceChooserLayer_EnumeratePhysicalDeviceGroups N environ st inst (some cap) none =
        some ⟨VK_SUCCESS, some 1, none, tr, st⟩) ∧
    (∀ (cap : Nat) (g : VkPhysicalDeviceGroupProperties)
      (rest : List VkPhysicalDeviceGroupProperties), 0 < cap →
      DeviceChooserLayer_EnumeratePhysicalDeviceGroups N environ st inst (some cap)
          (some (g :: rest)) =
        some ⟨VK_SUCCESS, some 1, some (fillGroup g d :: rest), tr, st⟩) := by
  constructor
  · intro cap
    simp [DeviceChooserLayer_EnumeratePhysicalDeviceGroups, GetInstanceDispatch_live _ _ _ hlive,
      henv, hc, hd]
  · intro cap b rest hcap
    simp [DeviceChooserLayer_EnumeratePhysicalDeviceGroups, GetInstanceDispatch_live _ _ _ hlive,
      henv, hc, hd, hcap]

/-! ## Selection by a valid index -/

/-- C1: with `VULKAN_DEVICE_INDEX` present and read by `atoi` as `I`, a next layer that
successfully reports the (valid, non-null) devices `devs`, and `0 ≤ I < devs.length`:
`ChooseDevice` yields the device at position `I`; `EnumeratePhysicalDevices` called with a
non-null array and capacity at least 1 returns `VK_SUCCESS`, stores that device in slot 0
(the other slots keep their contents) and sets the count to 1; the only diagnostic is the
informational line naming `I` on stdout, nothing goes to stderr. -/
theorem C1_valid_index_selects_that_device (N : NextLayer) (environ : String → Option String)
    (st : LayerState) (inst : VkInstance) (dispatch : VkLayerInstanceDispatchTable)
    (env : String) (devs : List VkPhysicalDevice) (I : Int) (cap : Nat) (b : VkPhysicalDevice)
    (rest : List VkPhysicalDevice)
    (henv : GetEnv environ kEnvVariable = some env)
    (hlive : StdMap.find st.gInstanceDispatch (GetKey inst) = some dispatch)
    (hdev : ReportsDevices N dispatch.EnumeratePhysicalDevices inst devs)
    (hvalid : ∀ x ∈ devs, x ≠ VK_NULL_HANDLE)
    (hI : atoi env = I) (h0 : 0 ≤ I) (hN : I < devs.length) (hcap : 1 ≤ cap) :
    ∃ d : VkPhysicalDevice, devs[I.toNat]? = some d ∧
      ChooseDevice N inst dispatch env =
        some ⟨VK_SUCCESS, some d,
          [countQuery dispatch.EnumeratePhysicalDevices inst,
           listFetch dispatch.EnumeratePhysicalDevices inst devs.length,
           Event.atoi env, Event.printf (infoLine I)]⟩ ∧
      DeviceChooserLayer_EnumeratePhysicalDevices N environ st inst (some cap) (some (b :: rest)) =
        some ⟨VK_SUCCESS, some 1, some (d :: rest),
          [countQuery dispatch.EnumeratePhysicalDevices inst,
           listFetch dispatch.EnumeratePhysicalDevices inst devs.length,
           Event.atoi env, Event.printf (infoLine I)], st⟩ ∧
      stdoutOf [countQuery dispatch.EnumeratePhysicalDevices inst,
           listFetch dispatch.EnumeratePhysicalDevices inst devs.length,
           Event.atoi env, Event.printf (infoLine I)] = [infoLine I] ∧
      stderrOf [countQuery dispatch.EnumeratePhysicalDevices inst,
           listFetch dispatch.EnumeratePhysicalDevices inst devs.length,
           Event.atoi env, Event.printf (infoLine I)] = [] := by
  subst hI
  have hlt : (atoi env).toNat < devs.length := by omega
  refine ⟨devs[(atoi env).toNat], List.getElem?_eq_getElem hlt, ?_, ?_, ?_, ?_⟩
  · exact ChooseDevice_in_range N inst dispatch env devs _ hdev h0 hN
      (List.getElem?_eq_getElem hlt)
  · exact (EnumeratePhysicalDevices_of_device N environ st inst dispatch env _ _ henv hlive
      (ChooseDevice_in_range N inst dispatch env devs _ hdev h0 hN (List.getElem?_eq_getElem hlt))
      (hvalid _ (List.getElem_mem _))).2 cap b rest hcap
  · simp [stdoutOf, countQuery, listFetch]
  · simp [stderrOf, countQuery, listFetch]

/-- C1 on the scenario of the specification: devices `[101, 102, 103]`, configuration
`"1"`, data call with capacity 1. -/
theorem C1_valid_index_selects_that_device_witness :
    DeviceChooserLayer_EnumeratePhysicalDevices (sampleNext [101, 102, 103] 0 sampleInstance)
        (sampleEnviron (some "1")) sampleState sampleInstance (some 1) (some [0]) =
      some ⟨VK_SUCCESS, some 1, some [102],
        [countQuery 4122 sampleInstance, listFetch 4122 sampleInstance 3, Event.atoi "1",
         Event.printf "[DeviceChooserLayer] Using Vulkan device index 1\n"], sampleState⟩ := by
  obtain ⟨d, hd, _, h, _, _⟩ := C1_valid_index_selects_that_device
    (sampleNext [101, 102, 103] 0 sampleInstance) (sampleEnviron (some "1")) sampleState
    sampleInstance sampleTable "1" [101, 102, 103] 1 1 0 []
    (by decide) (by decide) (by decide) (by decide) (by decide)
    (by decide) (by decide) (by decide)
  have hd2 : d = 102 := by simpa using hd.symm
  subst hd2
  exact h

/-! ## Fallback for an index out of range -/

/-- C2: with `VULKAN_DEVICE_INDEX` present and read by `atoi` as `I`, a next layer that
successfully reports the non-empty list `devs` of (valid, non-null) devices, and `I < 0` or
`I ≥ devs.length`: `ChooseDevice` yields the device at position 0 with `VK_SUCCESS`, the
enumeration entry point returns `VK_SUCCESS` (count-only call, and data call that delivers
the device at position 0), and the only diagnostic is the warning naming `I` and
`devs.length` on stderr, nothing goes to stdout. -/
theorem C2_out_of_range_index_falls_back (N : NextLayer) (environ : String → Option String)
    (st : LayerState) (inst : VkInstance) (dispatch : VkLayerInstanceDispatchTable)
    (env : String) (devs : List VkPhysicalDevice) (I : Int)
    (henv : GetEnv environ kEnvVariable = some env)
    (hlive : StdMap.find st.gInstanceDispatch (GetKey inst) = some dispatch)
    (hdev : ReportsDevices N dispatch.EnumeratePhysicalDevices inst devs)
    (hvalid : ∀ x ∈ devs, x ≠ VK_NULL_HANDLE)
    (hN : 1 ≤ devs.length)
    (hI : atoi env = I) (hout : I < 0 ∨ (devs.length : Int) ≤ I) :
    ∃ d : VkPhysicalDevice, devs[0]? = some d ∧
      ChooseDevice N inst dispatch env =
        some ⟨VK_SUCCESS, some d,
          [countQuery dispatch.EnumeratePhysicalDevices inst,
           listFetch dispatch.EnumeratePhysicalDevices inst devs.length,
           Event.atoi env, Event.fprintf_stderr (warningLine I devs.length)]⟩ ∧
      (∀ cap : Nat,
        DeviceChooserLayer_EnumeratePhysicalDevices N environ st inst (some cap) none =
          some ⟨VK_SUCCESS, some 1, none,
            [countQuery dispatch.EnumeratePhysicalDevices inst,
             listFetch dispatch.EnumeratePhysicalDevices inst devs.length,
             Event.atoi env, Event.fprintf_stderr (warningLine I devs.length)], st⟩) ∧
      (∀ (cap : Nat) (b : VkPhysicalDevice) (rest : List VkPhysicalDevice), 0 < cap →
        DeviceChooserLayer_EnumeratePhysicalDevices N environ st inst (some cap)
            (some (b :: rest)) =
          some ⟨VK_SUCCESS, some 1, some (d :: rest),
            [countQuery dispatch.EnumeratePhysicalDevices inst,
             listFetch dispatch.EnumeratePhysicalDevices inst devs.length,
             Event.atoi env, Event.fprintf_stderr (warningLine I devs.length)], st⟩) ∧
      stderrOf [countQuery dispatch.EnumeratePhysicalDevices inst,
           listFetch dispatch.EnumeratePhysicalDevices inst devs.length,
           Event.atoi env, Event.fprintf_stderr (warningLine I devs.length)] =
        [warningLine I devs.length] ∧
      stdoutOf [countQuery dispatch.EnumeratePhysicalDevices inst,
           listFetch dispatch.EnumeratePhysicalDevices inst devs.length,
           Event.atoi env, Event.fprintf_stderr (warningLine I devs.length)] = [] := by
  subst hI
  have hlt : 0 < devs.length := by omega
  have hc := ChooseDevice_out_of_range N inst dispatch env devs _ hdev hout
    (List.getElem?_eq_getElem hlt)
  have he := EnumeratePhysicalDevices_of_device N environ st inst dispatch env _ _ henv hlive hc
    (hvalid _ (List.getElem_mem _))
  refine ⟨devs[0], List.getElem?_eq_getElem hlt, hc, he.1, he.2, ?_, ?_⟩
  · simp [stderrOf, countQuery, listFetch]
  · simp [stdoutOf, countQuery, listFetch]

/-- C2 on the scenario of the specification: devices `[101, 102, 103]`, configuration
`"9"`, data call with capacity 1. -/
theorem C2_out_of_range_index_falls_back_witness :
    DeviceChooserLayer_EnumeratePhysicalDevices (sampleNext [101, 102, 103] 0 sampleInstance)
        (sampleEnviron (some "9")) sampleState sampleInstance (some 1) (some [0]) =
      some ⟨VK_SUCCESS, some 1, some [101],
        [countQuery 4122 sampleInstance, listFetch 4122 sampleInstance 3, Event.atoi "9",
         Event.fprintf_stderr ("[DeviceChooserLayer] Warning: Device index \x279\x27 is out " ++
           "of bounds (found 3 devices). Falling back to device 0.\n")], sampleState⟩ := by
  obtain ⟨d, hd, _, _, h, _, _⟩ := C2_out_of_range_index_falls_back
    (sampleNext [101, 102, 103] 0 sampleInstance) (sampleEnviron (some "9")) sampleState
    sampleInstance sampleTable "9" [101, 102, 103] 9
    (by decide) (by decide) (by decide) (by decide) (by decide)
    (by decide) (by decide)
  have hd2 : d = 101 := by simpa using hd.symm
  subst hd2
  exact h 1 0 [] (by decide)

/-! ## Transparency without the variable -/

/-- C3: when `VULKAN_DEVICE_INDEX` is absent, `EnumeratePhysicalDevices` and
`EnumeratePhysicalDeviceGroups` make exactly one call, to the next layer's function of the
same name with the caller's instance, count pointer and array; return code, count and array
contents are those the next layer produced; nothing is parsed or printed and the registries
are unchanged. -/
theorem C3_absent_variable_is_transparent (N : NextLayer) (environ : String → Option String)
    (st : LayerState) (inst : VkInstance) (dispatch : VkLayerInstanceDispatchTable)
    (henv : GetEnv environ kEnvVariable = none)
    (hlive : StdMap.find st.gInstanceDispatch (GetKey inst) = some dispatch) :
    (dispatch.EnumeratePhysicalDevices ≠ 0 →
      ∀ (pCount : Option Nat) (pData : Option (List VkPhysicalDevice)),
        DeviceChooserLayer_EnumeratePhysicalDevices N environ st inst pCount pData =
          some ⟨(N.EnumeratePhysicalDevices dispatch.EnumeratePhysicalDevices inst pCount
              pData).result,
            pCount.map (fun _ => (N.EnumeratePhysicalDevices dispatch.EnumeratePhysicalDevices
              inst pCount pData).count),
            pData.map (fun _ => (N.EnumeratePhysicalDevices dispatch.EnumeratePhysicalDevices
              inst pCount pData).data),
            [Event.EnumeratePhysicalDevices dispatch.EnumeratePhysicalDevices inst pCount pData],
            st⟩ ∧
        Silent [Event.EnumeratePhysicalDevices dispatch.EnumeratePhysicalDevices inst pCount
          pData]) ∧
    (dispatch.EnumeratePhysicalDeviceGroups ≠ 0 →
      ∀ (pCount : Option Nat) (pData : Option (List VkPhysicalDeviceGroupProperties)),
        DeviceChooserLayer_EnumeratePhysicalDeviceGroups N environ st inst pCount pData =
          some ⟨(N.EnumeratePhysicalDeviceGroups dispatch.EnumeratePhysicalDeviceGroups inst
              pCount pData).result,
            pCount.map (fun _ => (N.EnumeratePhysicalDeviceGroups
              dispatch.EnumeratePhysicalDeviceGroups inst pCount pData).count),
            pData.map (fun _ => (N.EnumeratePhysicalDeviceGroups
              dispatch.EnumeratePhysicalDeviceGroups inst pCount pData).data),
            [Event.EnumeratePhysicalDeviceGroups dispatch.EnumeratePhysicalDeviceGroups inst
              pCount pData],
            st⟩ ∧
        Silent [Event.EnumeratePhysicalDeviceGroups dispatch.EnumeratePhysicalDeviceGroups inst
          pCount pData]) := by
  constructor
  · intro hpfn pCount pData
    constructor
    · simp [DeviceChooserLayer_EnumeratePhysicalDevices, GetInstanceDispatch_live _ _ _ hlive,
        henv, hpfn]
    · simp [Silent, parsedOf, stdoutOf, stderrOf]
  · intro hpfn pCount pData
    constructor
    · simp [DeviceChooserLayer_EnumeratePhysicalDeviceGroups,
        GetInstanceDispatch_live _ _ _ hlive, henv, hpfn]
    · simp [Silent, parsedOf, stdoutOf, stderrOf]

/-- C3 on the scenario of the specification: devices `[101, 102, 103]`, variable absent,
data call with capacity 3. -/
theorem C3_absent_variable_is_transparent_witness :
    DeviceChooserLayer_EnumeratePhysicalDevices (sampleNext [101, 102, 103] 0 sampleInstance)
        (sampleEnviron none) sampleState sampleInstance (some 3) (some [0, 0, 0]) =
      some ⟨VK_SUCCESS, some 3, some [101, 102, 103],
        [Event.EnumeratePhysicalDevices 4122 sampleInstance (some 3) (some [0, 0, 0])],
        sampleState⟩ :=
  ((C3_absent_variable_is_transparent (sampleNext [101, 102, 103] 0 sampleInstance)
    (sampleEnviron none) sampleState sampleInstance sampleTable (by decide) (by decide)).1
    (by decide) (some 3) (some [0, 0, 0])).1

/-! ## Failures of the next layer -/

/-- C4: with `VULKAN_DEVICE_INDEX` present, if the next layer's `vkEnumeratePhysicalDevices`
returns a code `r` other than `VK_SUCCESS` on the count query, or on the list fetch that
follows a successful non-zero count, then `EnumeratePhysicalDevices` and
`EnumeratePhysicalDeviceGroups` return `r`, the caller's count and array are as before the
call, the registries are unchanged, nothing is parsed or printed, and after a failed count
query the count query is the only call made. -/
theorem C4_next_layer_failure_is_returned (N : NextLayer) (environ : String → Option String)
    (st : LayerState) (inst : VkInstance) (dispatch : VkLayerInstanceDispatchTable)
    (env : String) (r : VkResult)
    (henv : GetEnv environ kEnvVariable = some env)
    (hlive : StdMap.find st.gInstanceDispatch (GetKey inst) = some dispatch)
    (hpfn : dispatch.EnumeratePhysicalDevices ≠ 0)
    (hr : r ≠ VK_SUCCESS) :
    ((N.EnumeratePhysicalDevices dispatch.EnumeratePhysicalDevices inst (some 0) none).result = r →
      (∀ (pCount : Option Nat) (pData : Option (List VkPhysicalDevice)),
        DeviceChooserLayer_EnumeratePhysicalDevices N environ st inst pCount pData =
          some ⟨r, pCount, pData, [countQuery dispatch.EnumeratePhysicalDevices inst], st⟩) ∧
      (∀ (pCount : Option Nat) (pData : Option (List VkPhysicalDeviceGroupProperties)),
        DeviceChooserLayer_EnumeratePhysicalDeviceGroups N environ st inst pCount pData =
          some ⟨r, pCount, pData, [countQuery dispatch.EnumeratePhysicalDevices inst], st⟩) ∧
      Silent [countQuery dispatch.EnumeratePhysicalDevices inst]) ∧
    (∀ n : Nat,
      (N.EnumeratePhysicalDevices dispatch.EnumeratePhysicalDevices inst (some 0) none).result =
        VK_SUCCESS →
      (N.EnumeratePhysicalDevices dispatch.EnumeratePhysicalDevices inst (some 0) none).count =
        n →
      n ≠ 0 →
      (N.EnumeratePhysicalDevices dispatch.EnumeratePhysicalDevices inst (some n)
        (some (List.replicate n VK_NULL_HANDLE))).result = r →
      (∀ (pCount : Option Nat) (pData : Option (List VkPhysicalDevice)),
        DeviceChooserLayer_EnumeratePhysicalDevices N environ st inst pCount pData =
          some ⟨r, pCount, pData,
            [countQuery dispatch.EnumeratePhysicalDevices inst,
             listFetch dispatch.EnumeratePhysicalDevices inst n], st⟩) ∧
      (∀ (pCount : Option Nat) (pData : Option (List VkPhysicalDeviceGroupProperties)),
        DeviceChooserLayer_EnumeratePhysicalDeviceGroups N environ st inst pCount pData =
          some ⟨r, pCount, pData,
            [countQuery dispatch.EnumeratePhysicalDevices inst,
             listFetch dispatch.EnumeratePhysicalDevices inst n], st⟩) ∧
      Silent [countQuery dispatch.EnumeratePhysicalDevices inst,
             listFetch dispatch.EnumeratePhysicalDevices inst n]) := by
  constructor
  · intro hq
    have hc := ChooseDevice_count_failure N inst dispatch env hpfn (by rw [hq]; exact hr)
    rw [hq] at hc
    refine ⟨fun pCount pData => ?_, fun pCount pData => ?_, ?_⟩
    · exact EnumeratePhysicalDevices_of_failure N environ st inst dispatch env r _ pCount pData
        henv hlive hc hr
    · exact EnumeratePhysicalDeviceGroups_of_failure N environ st inst dispatch env r _ pCount
        pData henv hlive hc hr
    · simp [Silent, parsedOf, stdoutOf, stderrOf, countQuery]
  · intro n hq hn hn0 hf
    have hc := ChooseDevice_fetch_failure N inst dispatch env n hpfn hq hn hn0
      (by rw [hf]; exact hr)
    rw [hf] at hc
    refine ⟨fun pCount pData => ?_, fun pCount pData => ?_, ?_⟩
    · exact EnumeratePhysicalDevices_of_failure N environ st inst dispatch env r _ pCount pData
        henv hlive hc hr
    · exact EnumeratePhysicalDeviceGroups_of_failure N environ st inst dispatch env r _ pCount
        pData henv hlive hc hr
    · simp [Silent, parsedOf, stdoutOf, stderrOf, countQuery, listFetch]

/-- C4 on a next layer whose count query fails with `VK_ERROR_INITIALIZATION_FAILED`, and on
one whose list fetch fails with it after a count of 2. -/
theorem C4_next_layer_failure_is_returned_witness :
    DeviceChooserLayer_EnumeratePhysicalDevices (failingNext (-3) 0) (sampleEnviron (some "0"))
        sampleState sampleInstance (some 7) (some [55]) =
      some ⟨-3, some 7, some [55], [countQuery 4122 sampleInstance], sampleState⟩ ∧
    DeviceChooserLayer_EnumeratePhysicalDevices (failingNext (-3) 2) (sampleEnviron (some "0"))
        sampleState sampleInstance (some 7) (some [55]) =
      some ⟨-3, some 7, some [55],
        [countQuery 4122 sampleInstance, listFetch 4122 sampleInstance 2], sampleState⟩ :=
  ⟨((C4_next_layer_failure_is_returned (failingNext (-3) 0) (sampleEnviron (some "0"))
      sampleState sampleInstance sampleTable "0" (-3) (by decide) (by decide) (by decide)
      (by decide)).1 (by decide)).1 (some 7) (some [55]),
   ((C4_next_layer_failure_is_returned (failingNext (-3) 2) (sampleEnviron (some "0"))
      sampleState sampleInstance sampleTable "0" (-3) (by decide) (by decide) (by decide)
      (by decide)).2 2 (by decide) (by decide) (by decide) (by decide)).1 (some 7) (some [55])⟩

/-! ## No device -/

/-- C5: with `VULKAN_DEVICE_INDEX` present, if the next layer's count query succeeds with a
count of 0, then for every configuration text, every capacity and every array argument (null
or not) `EnumeratePhysicalDevices` and `EnumeratePhysicalDeviceGroups` return `VK_SUCCESS`,
set the count to 0 and leave the array as it was; the count query is the only call made (no
list fetch, no `atoi`, no output). -/
theorem C5_no_device_reports_zero (N : NextLayer) (environ : String → Option String)
    (st : LayerState) (inst : VkInstance) (dispatch : VkLayerInstanceDispatchTable)
    (env : String)
    (henv : GetEnv environ kEnvVariable = some env)
    (hlive : StdMap.find st.gInstanceDispatch (GetKey inst) = some dispatch)
    (hpfn : dispatch.EnumeratePhysicalDevices ≠ 0)
    (hq : (N.EnumeratePhysicalDevices dispatch.EnumeratePhysicalDevices inst (some 0) none).result
      = VK_SUCCESS)
    (hn : (N.EnumeratePhysicalDevices dispatch.EnumeratePhysicalDevices inst (some 0) none).count
      = 0) :
    (∀ (cap : Nat) (pData : Option (List VkPhysicalDevice)),
      DeviceChooserLayer_EnumeratePhysicalDevices N environ st inst (some cap) pData =
        some ⟨VK_SUCCESS, some 0, pData, [countQuery dispatch.EnumeratePhysicalDevices inst],
          st⟩) ∧
    (∀ (cap : Nat) (pData : Option (List VkPhysicalDeviceGroupProperties)),
      DeviceChooserLayer_EnumeratePhysicalDeviceGroups N environ st inst (some cap) pData =
        some ⟨VK_SUCCESS, some 0, pData, [countQuery dispatch.EnumeratePhysicalDevices inst],
          st⟩) ∧
    Silent [countQuery dispatch.EnumeratePhysicalDevices inst] := by
  have hc := ChooseDevice_no_device N inst dispatch env hpfn hq hn
  refine ⟨fun cap pData => ?_, fun cap pData => ?_, ?_⟩
  · exact EnumeratePhysicalDevices_of_no_device N environ st inst dispatch env _ cap pData henv
      hlive hc
  · exact EnumeratePhysicalDeviceGroups_of_no_device N environ st inst dispatch env _ cap pData
      henv hlive hc
  · simp [Silent, parsedOf, stdoutOf, stderrOf, countQuery]

/-- C5 on the scenario of the specification: no devices, configuration `"0"`; count-only
call and data call. -/
theorem C5_no_device_reports_zero_witness :
    DeviceChooserLayer_EnumeratePhysicalDevices (sampleNext [] 0 sampleInstance)
        (sampleEnviron (some "0")) sampleState sampleInstance (some 5) none =
      some ⟨VK_SUCCESS, some 0, none, [countQuery 4122 sampleInstance], sampleState⟩ ∧
    DeviceChooserLayer_EnumeratePhysicalDevices (sampleNext [] 0 sampleInstance)
        (sampleEnviron (some "0")) sampleState sampleInstance (some 2) (some [55, 66]) =
      some ⟨VK_SUCCESS, some 0, some [55, 66], [countQuery 4122 sampleInstance], sampleState⟩ :=
  ⟨(C5_no_device_reports_zero (sampleNext [] 0 sampleInstance) (sampleEnviron (some "0"))
      sampleState sampleInstance sampleTable "0" (by decide) (by decide) (by decide) (by decide)
      (by decide)).1 5 none,
   (C5_no_device_reports_zero (sampleNext [] 0 sampleInstance) (sampleEnviron (some "0"))
      sampleState sampleInstance sampleTable "0" (by decide) (by decide) (by decide) (by decide)
      (by decide)).1 2 (some [55, 66])⟩

/-! ## Device groups -/

/-- C6: with `VULKAN_DEVICE_INDEX` present and a next layer that successfully reports the
non-empty list `devs` of (valid, non-null) devices, a data call to
`EnumeratePhysicalDeviceGroups` (non-null array, capacity above 0) returns `VK_SUCCESS`, sets
the group count to 1 and stores in group 0 `physicalDeviceCount = 1`, `physicalDevices[0] =`
the device `ChooseDevice` yields (the device at the resolved index) and
`subsetAllocation = VK_FALSE`; the other fields of group 0 and all other groups of the array
keep their contents.  The `KHR` entry point returns what the unsuffixed one returns. -/
theorem C6_group_enumeration_fills_one_group (N : NextLayer) (environ : String → Option String)
    (st : LayerState) (inst : VkInstance) (dispatch : VkLayerInstanceDispatchTable)
    (env : String) (devs : List VkPhysicalDevice) (cap : Nat)
    (g : VkPhysicalDeviceGroupProperties) (rest : List VkPhysicalDeviceGroupProperties)
    (henv : GetEnv environ kEnvVariable = some env)
    (hlive : StdMap.find st.gInstanceDispatch (GetKey inst) = some dispatch)
    (hdev : ReportsDevices N dispatch.EnumeratePhysicalDevices inst devs)
    (hvalid : ∀ x ∈ devs, x ≠ VK_NULL_HANDLE)
    (hN : 1 ≤ devs.length) (hcap : 0 < cap) :
    ∃ (d : VkPhysicalDevice) (g0 : VkPhysicalDeviceGroupProperties),
      devs[resolvedIndex env devs.length]? = some d ∧
      ChooseDevice N inst dispatch env =
        some ⟨VK_SUCCESS, some d,
          selectionTrace dispatch.EnumeratePhysicalDevices inst devs.length env⟩ ∧
      DeviceChooserLayer_EnumeratePhysicalDeviceGroups N environ st inst (some cap)
          (some (g :: rest)) =
        some ⟨VK_SUCCESS, some 1, some (g0 :: rest),
          selectionTrace dispatch.EnumeratePhysicalDevices inst devs.length env, st⟩ ∧
      g0.physicalDeviceCount = 1 ∧ g0.physicalDevices 0 = d ∧ g0.subsetAllocation = VK_FALSE ∧
      g0.sType = g.sType ∧ g0.pNext = g.pNext ∧
      (∀ i : Fin 32, i ≠ 0 → g0.physicalDevices i = g.physicalDevices i) ∧
      (∀ (pCount : Option Nat) (pData : Option (List VkPhysicalDeviceGroupProperties)),
        DeviceChooserLayer_EnumeratePhysicalDeviceGroupsKHR N environ st inst pCount pData =
          DeviceChooserLayer_EnumeratePhysicalDeviceGroups N environ st inst pCount pData) := by
  have hlt : resolvedIndex env devs.length < devs.length := resolvedIndex_lt env _ hN
  have hc := ChooseDevice_selects N inst dispatch env devs _ hdev (List.getElem?_eq_getElem hlt)
  have he := EnumeratePhysicalDeviceGroups_of_device N environ st inst dispatch env _ _ henv
    hlive hc (hvalid _ (List.getElem_mem _))
  refine ⟨devs[resolvedIndex env devs.length], fillGroup g devs[resolvedIndex env devs.length],
    List.getElem?_eq_getElem hlt, hc, he.2 cap g rest hcap, rfl, ?_, rfl, rfl, rfl, ?_, ?_⟩
  · simp [fillGroup]
  · intro i hi
    simp [fillGroup, Function.update, hi]
  · intro pCount pData
    rfl

/-- C6 on the scenario of the specification: devices `[101, 102]`, configuration `"1"`. -/
theorem C6_group_enumeration_fills_one_group_witness :
    ∃ g0 : VkPhysicalDeviceGroupProperties,
      DeviceChooserLayer_EnumeratePhysicalDeviceGroups (sampleNext [101, 102] 0 sampleInstance)
          (sampleEnviron (some "1")) sampleState sampleInstance (some 1)
          (some [⟨1000070000, 0, 7, fun _ => 9, 1⟩]) =
        some ⟨VK_SUCCESS, some 1, some [g0],
          selectionTrace 4122 sampleInstance 2 "1", sampleState⟩ ∧
      g0.physicalDeviceCount = 1 ∧ g0.physicalDevices 0 = 102 ∧ g0.subsetAllocation = 0 := by
  obtain ⟨d, g0, hd, _, h, h1, h2, h3, _⟩ := C6_group_enumeration_fills_one_group
    (sampleNext [101, 102] 0 sampleInstance) (sampleEnviron (some "1")) sampleState
    sampleInstance sampleTable "1" [101, 102] 1 ⟨1000070000, 0, 7, fun _ => 9, 1⟩ []
    (by decide) (by decide) (by decide) (by decide) (by decide)
    (by decide)
  have hidx : resolvedIndex "1" 2 = 1 := by decide
  have hd2 : d = 102 := by
    rw [show ([101, 102] : List VkPhysicalDevice).length = 2 from rfl, hidx] at hd
    simpa using hd.symm
  subst hd2
  exact ⟨g0, h, h1, h2, h3⟩

/-! ## Instance extension properties -/

/-- C7, as stated, fails: for a null layer name and for a name other than the layer's own,
`EnumerateInstanceExtensionProperties` returns `VK_ERROR_LAYER_NOT_PRESENT`, which is not
`VK_SUCCESS`, and does not store a property count of 0. -/
theorem C7_counterexample :
    DeviceChooserLayer_EnumerateInstanceExtensionProperties none (some 5) =
      (VK_ERROR_LAYER_NOT_PRESENT, some 5) ∧
    DeviceChooserLayer_EnumerateInstanceExtensionProperties (some "VK_LAYER_KHRONOS_validation")
      (some 5) = (VK_ERROR_LAYER_NOT_PRESENT, some 5) ∧
    VK_ERROR_LAYER_NOT_PRESENT ≠ VK_SUCCESS := by
  decide

/-- C7, amended: for every layer-name argument that is null or differs from
`"VK_LAYER_AEJS_DeviceChooserLayer"`, `EnumerateInstanceExtensionProperties` returns
`VK_ERROR_LAYER_NOT_PRESENT` and leaves the property count as it was; for the layer's own
name it returns `VK_SUCCESS` and stores a property count of 0 when the count pointer is not
null. -/
theorem C7_mismatched_layer_name_is_not_present (pLayerName : Option String)
    (pPropertyCount : Option Nat)
    (hname : pLayerName ≠ some "VK_LAYER_AEJS_DeviceChooserLayer") :
    DeviceChooserLayer_EnumerateInstanceExtensionProperties pLayerName pPropertyCount =
      (VK_ERROR_LAYER_NOT_PRESENT, pPropertyCount) ∧
    DeviceChooserLayer_EnumerateInstanceExtensionProperties
      (some "VK_LAYER_AEJS_DeviceChooserLayer") pPropertyCount =
      (VK_SUCCESS, pPropertyCount.map (fun _ => 0)) := by
  constructor
  · cases pLayerName with
    | none => rfl
    | some name =>
      have hne : name ≠ kLayerName := fun h => hname (by rw [h]; rfl)
      simp [DeviceChooserLayer_EnumerateInstanceExtensionProperties, hne]
  · simp [DeviceChooserLayer_EnumerateInstanceExtensionProperties, kLayerName]

/-- C7, amended, on a null layer name with a property count of 5. -/
theorem C7_mismatched_layer_name_is_not_present_witness :
    DeviceChooserLayer_EnumerateInstanceExtensionProperties none (some 5) = (-6, some 5) ∧
    DeviceChooserLayer_EnumerateInstanceExtensionProperties
      (some "VK_LAYER_AEJS_DeviceChooserLayer") (some 5) = (0, some 0) :=
  C7_mismatched_layer_name_is_not_present none (some 5) (by decide)

/-! ## Configuration text that is not a number -/

/-- C8, as stated, fails: with devices `[101, 102]` the text `"1abc"` selects the device at
position 1 (not 0) and the text `"abc"` selects position 0, and in both cases the layer
prints the informational line on stdout and no warning. -/
theorem C8_counterexample :
    DeviceChooserLayer_EnumeratePhysicalDevices (sampleNext [101, 102] 0 sampleInstance)
        (sampleEnviron (some "1abc")) sampleState sampleInstance (some 1) (some [0]) =
      some ⟨VK_SUCCESS, some 1, some [102],
        [countQuery 4122 sampleInstance, listFetch 4122 sampleInstance 2, Event.atoi "1abc",
         Event.printf "[DeviceChooserLayer] Using Vulkan device index 1\n"], sampleState⟩ ∧
    DeviceChooserLayer_EnumeratePhysicalDevices (sampleNext [101, 102] 0 sampleInstance)
        (sampleEnviron (some "abc")) sampleState sampleInstance (some 1) (some [0]) =
      some ⟨VK_SUCCESS, some 1, some [101],
        [countQuery 4122 sampleInstance, listFetch 4122 sampleInstance 2, Event.atoi "abc",
         Event.printf "[DeviceChooserLayer] Using Vulkan device index 0\n"], sampleState⟩ ∧
    stderrOf [countQuery 4122 sampleInstance, listFetch 4122 sampleInstance 2,
        Event.atoi "1abc", Event.printf "[DeviceChooserLayer] Using Vulkan device index 1\n"] =
      [] ∧
    stderrOf [countQuery 4122 sampleInstance, listFetch 4122 sampleInstance 2,
        Event.atoi "abc", Event.printf "[DeviceChooserLayer] Using Vulkan device index 0\n"] =
      [] := by
  refine ⟨?_, ?_, rfl, rfl⟩
  · exact (EnumeratePhysicalDevices_of_device (sampleNext [101, 102] 0 sampleInstance)
      (sampleEnviron (some "1abc")) sampleState sampleInstance sampleTable "1abc" 102 _
      (by decide) (by decide)
      (ChooseDevice_in_range (sampleNext [101, 102] 0 sampleInstance) sampleInstance sampleTable
        "1abc" [101, 102] 102 (by decide) (by decide) (by decide)
        (by decide))
      (by decide)).2 1 0 [] (by decide)
  · exact (EnumeratePhysicalDevices_of_device (sampleNext [101, 102] 0 sampleInstance)
      (sampleEnviron (some "abc")) sampleState sampleInstance sampleTable "abc" 101 _
      (by decide) (by decide)
      (ChooseDevice_in_range (sampleNext [101, 102] 0 sampleInstance) sampleInstance sampleTable
        "abc" [101, 102] 101 (by decide) (by decide) (by decide)
        (by decide))
      (by decide)).2 1 0 [] (by decide)

/-- C8, amended: with `VULKAN_DEVICE_INDEX` present and a next layer that successfully
reports the non-empty list `devs` of (valid, non-null) devices, for every configuration text
the data call does not fail: it returns `VK_SUCCESS` and delivers one device.  The index is
what `atoi` reads from the text (after white space, an optional sign and the longest run of
decimal digits; 0 when there is no digit: 0 for `""`, `"abc"`, `"0x2"`, 1 for `"1abc"`).
When that value is in `0 .. devs.length - 1` the device at that position is delivered, with
the informational line on stdout and no warning; when it is negative or at least
`devs.length`, the device at position 0 is delivered, with the warning on stderr. -/
theorem C8_any_text_is_read_by_atoi (N : NextLayer) (environ : String → Option String)
    (st : LayerState) (inst : VkInstance) (dispatch : VkLayerInstanceDispatchTable)
    (env : String) (devs : List VkPhysicalDevice) (cap : Nat) (b : VkPhysicalDevice)
    (rest : List VkPhysicalDevice)
    (henv : GetEnv environ kEnvVariable = some env)
    (hlive : StdMap.find st.gInstanceDispatch (GetKey inst) = some dispatch)
    (hdev : ReportsDevices N dispatch.EnumeratePhysicalDevices inst devs)
    (hvalid : ∀ x ∈ devs, x ≠ VK_NULL_HANDLE)
    (hN : 1 ≤ devs.length) (hcap : 1 ≤ cap) :
    ∃ d : VkPhysicalDevice, devs[resolvedIndex env devs.length]? = some d ∧
      DeviceChooserLayer_EnumeratePhysicalDevices N environ st inst (some cap) (some (b :: rest)) =
        some ⟨VK_SUCCESS, some 1, some (d :: rest),
          selectionTrace dispatch.EnumeratePhysicalDevices inst devs.length env, st⟩ ∧
      (0 ≤ atoi env ∧ atoi env < devs.length →
        resolvedIndex env devs.length = (atoi env).toNat ∧
        stdoutOf (selectionTrace dispatch.EnumeratePhysicalDevices inst devs.length env) =
          [infoLine (atoi env)] ∧
        stderrOf (selectionTrace dispatch.EnumeratePhysicalDevices inst devs.length env) = []) ∧
      (atoi env < 0 ∨ (devs.length : Int) ≤ atoi env →
        resolvedIndex env devs.length = 0 ∧
        stdoutOf (selectionTrace dispatch.EnumeratePhysicalDevices inst devs.length env) = [] ∧
        stderrOf (selectionTrace dispatch.EnumeratePhysicalDevices inst devs.length env) =
          [warningLine (atoi env) devs.length]) ∧
      atoi "" = 0 ∧ atoi "abc" = 0 ∧ atoi "0x2" = 0 ∧ atoi "1abc" = 1 := by
  have hlt : resolvedIndex env devs.length < devs.length := resolvedIndex_lt env _ hN
  have hc := ChooseDevice_selects N inst dispatch env devs _ hdev (List.getElem?_eq_getElem hlt)
  have he := EnumeratePhysicalDevices_of_device N environ st inst dispatch env _ _ henv
    hlive hc (hvalid _ (List.getElem_mem _))
  refine ⟨devs[resolvedIndex env devs.length], List.getElem?_eq_getElem hlt,
    he.2 cap b rest hcap, ?_, ?_, by decide, by decide, by decide, by decide⟩
  · intro hin
    have hno : ¬ (atoi env < 0 ∨ (devs.length : Int) ≤ atoi env) := by omega
    simp [resolvedIndex, selectionTrace, diagnostic, hno, stdoutOf, stderrOf, countQuery,
      listFetch]
  · intro hout
    simp [resolvedIndex, selectionTrace, diagnostic, hout, stdoutOf, stderrOf, countQuery,
      listFetch]

/-- C8, amended, on devices `[101, 102]` and the text `"0x2"`. -/
theorem C8_any_text_is_read_by_atoi_witness :
    DeviceChooserLayer_EnumeratePhysicalDevices (sampleNext [101, 102] 0 sampleInstance)
        (sampleEnviron (some "0x2")) sampleState sampleInstance (some 1) (some [0]) =
      some ⟨VK_SUCCESS, some 1, some [101], selectionTrace 4122 sampleInstance 2 "0x2",
        sampleState⟩ := by
  obtain ⟨d, hd, h, _⟩ := C8_any_text_is_read_by_atoi
    (sampleNext [101, 102] 0 sampleInstance) (sampleEnviron (some "0x2")) sampleState
    sampleInstance sampleTable "0x2" [101, 102] 1 0 []
    (by decide) (by decide) (by decide) (by decide) (by decide)
    (by decide)
  have hidx : resolvedIndex "0x2" 2 = 0 := by decide
  have hd2 : d = 101 := by
    rw [show ([101, 102] : List VkPhysicalDevice).length = 2 from rfl, hidx] at hd
    simpa using hd.symm
  subst hd2
  exact h

/-! ## The two phases of an enumeration -/

/-- C9: with `VULKAN_DEVICE_INDEX` present, a next layer that successfully reports the list
`devs` of (valid, non-null) devices, and any configuration text, for `EnumeratePhysicalDevices`
and likewise `EnumeratePhysicalDeviceGroups`.  When `devs` is empty, the count-only call (null
array) returns `VK_SUCCESS` and reports 0, and the following data call with capacity 0 returns
`VK_SUCCESS`, reports 0 again and leaves every element of the array as it was.  When `devs`
is not empty, the count-only call returns `VK_SUCCESS` and reports 1 (the array stays null),
and the following data call with capacity 1 returns `VK_SUCCESS`, reports 1 again and has
written exactly one element: slot 0 now holds the device at the resolved index (resp. the
group made of that device), every other slot holds what it held before. -/
theorem C9_two_phase_fidelity (N : NextLayer) (environ : String → Option String)
    (st : LayerState) (inst : VkInstance) (dispatch : VkLayerInstanceDispatchTable)
    (env : String) (devs : List VkPhysicalDevice)
    (henv : GetEnv environ kEnvVariable = some env)
    (hlive : StdMap.find st.gInstanceDispatch (GetKey inst) = some dispatch)
    (hdev : ReportsDevices N dispatch.EnumeratePhysicalDevices inst devs)
    (hvalid : ∀ x ∈ devs, x ≠ VK_NULL_HANDLE) :
    (devs.length = 0 →
      (∀ cap : Nat,
        DeviceChooserLayer_EnumeratePhysicalDevices N environ st inst (some cap) none =
          some ⟨VK_SUCCESS, some 0, none,
            [countQuery dispatch.EnumeratePhysicalDevices inst], st⟩) ∧
      (∀ buf : List VkPhysicalDevice,
        DeviceChooserLayer_EnumeratePhysicalDevices N environ st inst (some 0) (some buf) =
          some ⟨VK_SUCCESS, some 0, some buf,
            [countQuery dispatch.EnumeratePhysicalDevices inst], st⟩) ∧
      (∀ cap : Nat,
        DeviceChooserLayer_EnumeratePhysicalDeviceGroups N environ st inst (some cap) none =
          some ⟨VK_SUCCESS, some 0, none,
            [countQuery dispatch.EnumeratePhysicalDevices inst], st⟩) ∧
      (∀ buf : List VkPhysicalDeviceGroupProperties,
        DeviceChooserLayer_EnumeratePhysicalDeviceGroups N environ st inst (some 0) (some buf) =
          some ⟨VK_SUCCESS, some 0, some buf,
            [countQuery dispatch.EnumeratePhysicalDevices inst], st⟩)) ∧
    (devs.length ≠ 0 →
      ∃ d : VkPhysicalDevice, devs[resolvedIndex env devs.length]? = some d ∧
        (∀ cap : Nat,
          DeviceChooserLayer_EnumeratePhysicalDevices N environ st inst (some cap) none =
            some ⟨VK_SUCCESS, some 1, none,
              selectionTrace dispatch.EnumeratePhysicalDevices inst devs.length env, st⟩) ∧
        (∀ (b : VkPhysicalDevice) (rest : List VkPhysicalDevice),
          DeviceChooserLayer_EnumeratePhysicalDevices N environ st inst (some 1)
              (some (b :: rest)) =
            some ⟨VK_SUCCESS, some 1, some (d :: rest),
              selectionTrace dispatch.EnumeratePhysicalDevices inst devs.length env, st⟩) ∧
        (∀ cap : Nat,
          DeviceChooserLayer_EnumeratePhysicalDeviceGroups N environ st inst (some cap) none =
            some ⟨VK_SUCCESS, some 1, none,
              selectionTrace dispatch.EnumeratePhysicalDevices inst devs.length env, st⟩) ∧
        (∀ (g : VkPhysicalDeviceGroupProperties) (rest : List VkPhysicalDeviceGroupProperties),
          DeviceChooserLayer_EnumeratePhysicalDeviceGroups N environ st inst (some 1)
              (some (g :: rest)) =
            some ⟨VK_SUCCESS, some 1, some (fillGroup g d :: rest),
              selectionTrace dispatch.EnumeratePhysicalDevices inst devs.length env, st⟩)) := by
  constructor
  · intro hz
    have hpfn := hdev.1
    have hc := ChooseDevice_no_device N inst dispatch env hpfn hdev.2.1
      (by rw [hdev.2.2.1]; exact hz)
    refine ⟨fun cap => ?_, fun buf => ?_, fun cap => ?_, fun buf => ?_⟩
    · exact EnumeratePhysicalDevices_of_no_device N environ st inst dispatch env _ cap none henv
        hlive hc
    · exact EnumeratePhysicalDevices_of_no_device N environ st inst dispatch env _ 0 (some buf)
        henv hlive hc
    · exact EnumeratePhysicalDeviceGroups_of_no_device N environ st inst dispatch env _ cap none
        henv hlive hc
    · exact EnumeratePhysicalDeviceGroups_of_no_device N environ st inst dispatch env _ 0
        (some buf) henv hlive hc
  · intro hz
    have hN : 1 ≤ devs.length := by omega
    have hlt : resolvedIndex env devs.length < devs.length := resolvedIndex_lt env _ hN
    have hc := ChooseDevice_selects N inst dispatch env devs _ hdev
      (List.getElem?_eq_getElem hlt)
    have hd := hvalid _ (List.getElem_mem hlt)
    have he := EnumeratePhysicalDevices_of_device N environ st inst dispatch env _ _ henv
      hlive hc hd
    have hg := EnumeratePhysicalDeviceGroups_of_device N environ st inst dispatch env _ _ henv
      hlive hc hd
    exact ⟨devs[resolvedIndex env devs.length], List.getElem?_eq_getElem hlt, he.1,
      fun b rest => he.2 1 b rest (by decide), hg.1, fun g rest => hg.2 1 g rest (by decide)⟩

/-- C9 on devices `[101, 102, 103]` with configuration `"1"`: the count-only call reports 1,
and the data call with capacity 1 on the array `[55, 66]` reports 1 and leaves `[102, 66]`. -/
theorem C9_two_phase_fidelity_witness :
    DeviceChooserLayer_EnumeratePhysicalDevices (sampleNext [101, 102, 103] 0 sampleInstance)
        (sampleEnviron (some "1")) sampleState sampleInstance (some 0) none =
      some ⟨VK_SUCCESS, some 1, none, selectionTrace 4122 sampleInstance 3 "1", sampleState⟩ ∧
    DeviceChooserLayer_EnumeratePhysicalDevices (sampleNext [101, 102, 103] 0 sampleInstance)
        (sampleEnviron (some "1")) sampleState sampleInstance (some 1) (some [55, 66]) =
      some ⟨VK_SUCCESS, some 1, some [102, 66], selectionTrace 4122 sampleInstance 3 "1",
        sampleState⟩ := by
  obtain ⟨d, hd, h1, h2, _⟩ := (C9_two_phase_fidelity
    (sampleNext [101, 102, 103] 0 sampleInstance) (sampleEnviron (some "1")) sampleState
    sampleInstance sampleTable "1" [101, 102, 103]
    (by decide) (by decide) (by decide) (by decide)).2 (by decide)
  have hidx : resolvedIndex "1" 3 = 1 := by decide
  have hd2 : d = 102 := by
    rw [show ([101, 102, 103] : List VkPhysicalDevice).length = 3 from rfl, hidx] at hd
    simpa using hd.symm
  subst hd2
  exact ⟨h1 0, h2 55 [66]⟩

/-! ## Facts about `std::map` -/

namespace StdMap

variable {V : Type}

end StdMap

/-! ## Effect of the entry points on the registries -/

end VkDeviceChooser
